import Mathlib

/-!
# Nutri-Score: a shallow embedding of `Project 1 - Nutri Score/nutriscore.go`

Modelling conventions.

* Go `float64` measurements are modelled by `ℚ`.  The scoring code only ever
  *compares* measurements with table constants (`v > l`), and comparison of
  finite floating-point numbers is exact, so the model covers every finite
  measurement.  The breakpoint tables are written with the decimal literals of
  the source; Go rounds a literal such as `4.7` to the nearest `float64`.  The
  general theorems below hold for every table and every value, and the
  concrete evaluations use measurements that are far from every breakpoint, so
  nothing depends on that rounding.  NaN and the infinities are not
  represented.
* The two unit conversions do arithmetic, so they are modelled with the rounding
  of `float64`: `nearestFloat64` rounds an exact rational result to the nearest
  binary64 value (ties to even, gradual underflow), and `roundFloat64` returns
  `none` when that value is not finite (overflow to an infinity).  A literal
  such as `4.184` in an arithmetic expression stands for the `float64` nearest
  to it.  The two zeros of `float64` are both modelled by `0`; they compare
  equal.
* Go `int` is modelled by `Int`; every integer the code computes is a sum or
  difference of at most seven table lengths, so no overflow can occur.
* `ScoreType` is a Go `int` with four named constants, so it is modelled by
  `Int` and values outside the four constants are representable.
* The conversion `float64(ns.Value)` is modelled by the cast `Int → ℚ`; the
  grade breakpoints are small integers, so rounding of a large `int` cannot
  change the outcome of a comparison with them.
* Indexing the slice `scoreToLetter` panics in Go when the index is out of
  range; the model returns `Option String`, with `none` for the panic.
-/

namespace NutriScore

/-- ScoreType is the type of the scored product (`type ScoreType int`). -/
abbrev ScoreType := Int

/-- Food is used when calculating nutritional score for general food items. -/
def Food : ScoreType := 0
/-- Beverage is used when calculating nutritional score for beverages. -/
def Beverage : ScoreType := 1
/-- Water is used when calculating nutritional score for water. -/
def Water : ScoreType := 2
/-- Cheese is used for calculating the nutritional score for cheeses. -/
def Cheese : ScoreType := 3

def scoreToLetter : List String := ["A", "B", "C", "D", "E"]

def energyLevels : List ℚ := [3350, 3015, 2680, 2345, 2010, 1675, 1340, 1005, 670, 335]
def sugarsLevels : List ℚ := [45, 40, 36, 31, 27, 22.5, 18, 13.5, 9, 4.5]
def saturatedFattyAcidsLevels : List ℚ := [10, 9, 8, 7, 6, 5, 4, 3, 2, 1]
def sodiumLevels : List ℚ := [900, 810, 720, 630, 540, 450, 360, 270, 180, 90]
def fibreLevels : List ℚ := [4.7, 3.7, 2.8, 1.9, 0.9]
def proteinLevels : List ℚ := [8, 6.4, 4.8, 3.2, 1.6]

def energyLevelsBeverage : List ℚ := [270, 240, 210, 180, 150, 120, 90, 60, 30, 0]
def sugarsLevelsBeverage : List ℚ := [13.5, 12, 10.5, 9, 7.5, 6, 4.5, 3, 1.5, 0]

/-- NutritionalScore contains the numeric nutritional score value and type of product. -/
structure NutritionalScore where
  Value : Int
  Positive : Int
  Negative : Int
  ScoreType : ScoreType
  deriving DecidableEq, Repr

/-- The body of the `for i, l := range steps` loop of `getPointsFromRange`:
`i` is the current index, the list is the part of `steps` not yet visited. -/
def getPointsFromRangeLoop (v : ℚ) (lenSteps : Int) : Int → List ℚ → Int
  | _, [] => 0
  | i, l :: rest =>
    if v > l then lenSteps - i else getPointsFromRangeLoop v lenSteps (i + 1) rest

def getPointsFromRange (v : ℚ) (steps : List ℚ) : Int :=
  getPointsFromRangeLoop v (steps.length : Int) 0 steps

/-- EnergyKJ represents the energy density in kJ/100g. -/
abbrev EnergyKJ := ℚ
/-- SugarGram represents amount of sugars in grams/100g. -/
abbrev SugarGram := ℚ
/-- SaturatedFattyAcidsGram represents amount of saturated fatty acids in grams/100g. -/
abbrev SaturatedFattyAcidsGram := ℚ
/-- SodiumMilligram represents amount of sodium in mg/100g. -/
abbrev SodiumMilligram := ℚ
/-- FruitsPercent represents fruits, vegetables, pulses, nuts, and rapeseed, walnut and
olive oils as percentage of the total. -/
abbrev FruitsPercent := ℚ
/-- FibreGram represents amount of fibre in grams/100g. -/
abbrev FibreGram := ℚ
/-- ProteinGram represents amount of protein in grams/100g. -/
abbrev ProteinGram := ℚ

/-- Round a rational to the nearest integer, ties to the even integer. -/
def roundHalfEven (t : ℚ) : Int :=
  if t - (⌊t⌋ : ℚ) < 1 / 2 then ⌊t⌋
  else if t - (⌊t⌋ : ℚ) > 1 / 2 then ⌊t⌋ + 1
  else if ⌊t⌋ % 2 = 0 then ⌊t⌋ else ⌊t⌋ + 1

/-- The binary exponent `e` that `float64` uses for a non-zero `x`:
`2 ^ e ≤ |x| < 2 ^ (e + 1)`, but never below the exponent `-1022` of the subnormal
numbers. -/
def float64Exponent (x : ℚ) : Int := max (Int.log 2 |x|) (-1022)

/-- The `float64` nearest to the exact value `x`, with an unbounded exponent range
above: `x` is rounded to the nearest multiple of `2 ^ (e - 52)` (53 significant
bits), ties to even. -/
def nearestFloat64 (x : ℚ) : ℚ :=
  if x = 0 then 0
  else (roundHalfEven (x / (2 : ℚ) ^ (float64Exponent x - 52)) : ℚ)
    * (2 : ℚ) ^ (float64Exponent x - 52)

/-- The result of a `float64` operation whose exact value is `x`: the nearest
`float64` when it is finite, `none` when the operation overflows to an infinity. -/
def roundFloat64 (x : ℚ) : Option ℚ :=
  if |nearestFloat64 x| < (2 : ℚ) ^ (1024 : Int) then some (nearestFloat64 x) else none

/-- EnergyFromKcal converts energy density from kcal to EnergyKJ: the `float64`
product of `kcal` and the `float64` constant `4.184`. -/
def EnergyFromKcal (kcal : ℚ) : Option EnergyKJ :=
  roundFloat64 (kcal * nearestFloat64 4.184)

def EnergyKJ.GetPoints (e : EnergyKJ) (st : ScoreType) : Int :=
  if st = Beverage then getPointsFromRange e energyLevelsBeverage
  else getPointsFromRange e energyLevels

def SugarGram.GetPoints (s : SugarGram) (st : ScoreType) : Int :=
  if st = Beverage then getPointsFromRange s sugarsLevelsBeverage
  else getPointsFromRange s sugarsLevels

def SaturatedFattyAcidsGram.GetPoints (sfa : SaturatedFattyAcidsGram) (_st : ScoreType) : Int :=
  getPointsFromRange sfa saturatedFattyAcidsLevels

def SodiumMilligram.GetPoints (s : SodiumMilligram) (_st : ScoreType) : Int :=
  getPointsFromRange s sodiumLevels

def FruitsPercent.GetPoints (f : FruitsPercent) (st : ScoreType) : Int :=
  if st = Beverage then
    if f > 80 then 10
    else if f > 60 then 4
    else if f > 40 then 2
    else 0
  else
    if f > 80 then 5
    else if f > 60 then 2
    else if f > 40 then 1
    else 0

def FibreGram.GetPoints (f : FibreGram) (_st : ScoreType) : Int :=
  getPointsFromRange f fibreLevels

def ProteinGram.GetPoints (p : ProteinGram) (_st : ScoreType) : Int :=
  getPointsFromRange p proteinLevels

/-- NutritionalData represents the source nutritional data used for the calculation. -/
structure NutritionalData where
  Energy : EnergyKJ
  Sugars : SugarGram
  SaturatedFattyAcids : SaturatedFattyAcidsGram
  Sodium : SodiumMilligram
  Fruits : FruitsPercent
  Fibre : FibreGram
  Protein : ProteinGram
  IsWater : Bool
  deriving DecidableEq

/-- GetNutritionalScore calculates the nutritional score for nutritional data `n` of
type `st`. -/
def GetNutritionalScore (n : NutritionalData) (st : ScoreType) : NutritionalScore :=
  if st ≠ Water then
    let fruitPoints := FruitsPercent.GetPoints n.Fruits st
    let fibrePoints := FibreGram.GetPoints n.Fibre st
    let negative := EnergyKJ.GetPoints n.Energy st + SugarGram.GetPoints n.Sugars st
      + SaturatedFattyAcidsGram.GetPoints n.SaturatedFattyAcids st
      + SodiumMilligram.GetPoints n.Sodium st
    let positive := fruitPoints + fibrePoints + ProteinGram.GetPoints n.Protein st
    let value :=
      if st = Cheese then negative - positive
      else if negative ≥ 11 ∧ fruitPoints < 5 then negative - fibrePoints - fruitPoints
      else negative - positive
    { Value := value, Positive := positive, Negative := negative, ScoreType := st }
  else
    { Value := 0, Positive := 0, Negative := 0, ScoreType := st }

/-- The slice index expression `s[i]` for an `int` index: `none` models the
run-time panic of an index outside `0 ≤ i < len(s)`. -/
def index (s : List String) (i : Int) : Option String :=
  if 0 ≤ i ∧ i < (s.length : Int) then s.get? i.toNat else none

/-- GetNutriScore returns the Nutri-Score rating. -/
def NutritionalScore.GetNutriScore (ns : NutritionalScore) : Option String :=
  if ns.ScoreType = Food then
    index scoreToLetter (getPointsFromRange (ns.Value : ℚ) [18, 10, 2, -1])
  else if ns.ScoreType = Water then
    index scoreToLetter 0
  else
    index scoreToLetter (getPointsFromRange (ns.Value : ℚ) [9, 5, 1, -2])

/-- The input of `main.go`.  Its energy is the value `0` that `EnergyFromKcal 0`
returns. -/
def referenceInput : NutritionalData :=
  { Energy := 0, Sugars := 10, SaturatedFattyAcids := 2, Sodium := 500,
    Fruits := 60, Fibre := 4, Protein := 2, IsWater := false }

/-- An input with ten energy points, one sugar point and five protein points: its
negative component is `11` and it has no fruit points. -/
def proteinRichInput : NutritionalData :=
  { Energy := 3400, Sugars := 5, SaturatedFattyAcids := 0, Sodium := 0,
    Fruits := 0, Fibre := 0, Protein := 9, IsWater := false }

/-- A Food input with negative component `11` (ten energy points, one sugar point)
whose fruit percentage lies exactly on the lowest bucket boundary `40`; it has two
fibre points and five protein points. -/
def boundaryFruitInput : NutritionalData :=
  { Energy := 3400, Sugars := 5, SaturatedFattyAcids := 0, Sodium := 0,
    Fruits := 40, Fibre := 2, Protein := 9, IsWater := false }

/-- An input without negative points and with the highest fruit, fibre and protein
points. -/
def produceRichInput : NutritionalData :=
  { Energy := 0, Sugars := 0, SaturatedFattyAcids := 0, Sodium := 0,
    Fruits := 90, Fibre := 5, Protein := 9, IsWater := false }

/-! ## Auxiliary lemmas on the threshold lookup -/

/-- Closed form of the loop: the points are the length of the suffix of `steps`
that starts at the first breakpoint strictly below `v`. -/
def suffixPoints (v : ℚ) : List ℚ → Int
  | [] => 0
  | l :: rest => if v > l then ((rest.length + 1 : Nat) : Int) else suffixPoints v rest

theorem getPointsFromRangeLoop_eq (v : ℚ) (steps : List ℚ) :
    ∀ (i lenSteps : Int), lenSteps = i + (steps.length : Int) →
      getPointsFromRangeLoop v lenSteps i steps = suffixPoints v steps := by
  induction steps with
  | nil => intro i n _; rfl
  | cons l rest ih =>
    intro i n hn
    simp only [getPointsFromRangeLoop, suffixPoints]
    split
    · simp only [List.length_cons] at hn; push_cast at hn ⊢; omega
    · apply ih; simp only [List.length_cons] at hn; push_cast at hn; omega

theorem getPointsFromRange_eq (v : ℚ) (steps : List ℚ) :
    getPointsFromRange v steps = suffixPoints v steps :=
  getPointsFromRangeLoop_eq v steps 0 _ (by simp)

theorem suffixPoints_nonneg (v : ℚ) (steps : List ℚ) : 0 ≤ suffixPoints v steps := by
  induction steps with
  | nil => simp [suffixPoints]
  | cons l rest ih =>
    simp only [suffixPoints]; split
    · exact Int.natCast_nonneg _
    · exact ih

theorem suffixPoints_le (v : ℚ) (steps : List ℚ) :
    suffixPoints v steps ≤ (steps.length : Int) := by
  induction steps with
  | nil => simp [suffixPoints]
  | cons l rest ih =>
    simp only [suffixPoints, List.length_cons]; split
    · exact le_refl _
    · push_cast; omega

theorem suffixPoints_first (v : ℚ) (steps : List ℚ) :
    ∀ (i : Nat) (hi : i < steps.length), v > steps.get ⟨i, hi⟩ →
      (∀ (j : Nat) (hj : j < i), ¬ v > steps.get ⟨j, hj.trans hi⟩) →
      suffixPoints v steps = (steps.length : Int) - (i : Int) := by
  induction steps with
  | nil => intro i hi; exact absurd hi (Nat.not_lt_zero _)
  | cons l rest ih =>
    intro i hi hv hmin
    cases i with
    | zero =>
      have h0 : v > l := hv
      simp [suffixPoints, h0]
    | succ k =>
      have h0 : ¬ v > l := hmin 0 (Nat.succ_pos k)
      have hk : k < rest.length := Nat.lt_of_succ_lt_succ hi
      have hrec := ih k hk hv (fun j hj => hmin (j + 1) (Nat.succ_lt_succ hj))
      simp only [suffixPoints, if_neg h0, hrec, List.length_cons]
      push_cast; omega

theorem suffixPoints_none (v : ℚ) (steps : List ℚ)
    (h : ∀ (i : Nat) (hi : i < steps.length), ¬ v > steps.get ⟨i, hi⟩) :
    suffixPoints v steps = 0 := by
  induction steps with
  | nil => rfl
  | cons l rest ih =>
    have h0 : ¬ v > l := h 0 (Nat.succ_pos _)
    simp only [suffixPoints, if_neg h0]
    exact ih (fun i hi => h (i + 1) (Nat.succ_lt_succ hi))

theorem suffixPoints_skip (v : ℚ) (steps : List ℚ) :
    ∀ (i : Nat) (hi : i < steps.length),
      (∀ (j : Nat) (hj : j < i + 1), j < steps.length → ¬ v > steps.get ⟨j, by omega⟩) →
      suffixPoints v steps ≤ (steps.length : Int) - (i : Int) - 1 := by
  induction steps with
  | nil => intro i hi; exact absurd hi (Nat.not_lt_zero _)
  | cons l rest ih =>
    intro i hi hmin
    have h0 : ¬ v > l := hmin 0 (Nat.succ_pos i) (Nat.succ_pos _)
    simp only [suffixPoints, if_neg h0, List.length_cons]
    cases i with
    | zero =>
      have := suffixPoints_le v rest
      push_cast; omega
    | succ k =>
      have hk : k < rest.length := Nat.lt_of_succ_lt_succ hi
      have hrec := ih k hk (fun j hj hjl => hmin (j + 1) (Nat.succ_lt_succ hj)
        (Nat.succ_lt_succ hjl))
      push_cast; omega

theorem suffixPoints_mono (steps : List ℚ) (v1 v2 : ℚ) (h : v1 ≤ v2) :
    suffixPoints v1 steps ≤ suffixPoints v2 steps := by
  induction steps with
  | nil => exact le_refl _
  | cons l rest ih =>
    simp only [suffixPoints]
    by_cases h1 : v1 > l
    · have h2 : v2 > l := lt_of_lt_of_le h1 h
      rw [if_pos h1, if_pos h2]
    · rw [if_neg h1]
      by_cases h2 : v2 > l
      · rw [if_pos h2]
        have := suffixPoints_le v1 rest
        push_cast; omega
      · rw [if_neg h2]; exact ih

theorem getPointsFromRange_mono (steps : List ℚ) (v1 v2 : ℚ) (h : v1 ≤ v2) :
    getPointsFromRange v1 steps ≤ getPointsFromRange v2 steps := by
  rw [getPointsFromRange_eq, getPointsFromRange_eq]
  exact suffixPoints_mono steps v1 v2 h

theorem getPointsFromRange_nonneg (v : ℚ) (steps : List ℚ) :
    0 ≤ getPointsFromRange v steps := by
  rw [getPointsFromRange_eq]; exact suffixPoints_nonneg v steps

theorem getPointsFromRange_le (v : ℚ) (steps : List ℚ) :
    getPointsFromRange v steps ≤ (steps.length : Int) := by
  rw [getPointsFromRange_eq]; exact suffixPoints_le v steps

/-- The letter lookup is defined and order preserving on the indices `0..4`. -/
theorem index_scoreToLetter_mono (i j : Int) (hi : 0 ≤ i) (hij : i ≤ j) (hj : j ≤ 4) :
    ∃ l1 l2 : String, index scoreToLetter i = some l1 ∧ index scoreToLetter j = some l2 ∧
      l1 ≤ l2 := by
  have hi4 : i ≤ 4 := le_trans hij hj
  have hj0 : 0 ≤ j := le_trans hi hij
  interval_cases i <;> interval_cases j <;>
    first
    | omega
    | exact ⟨_, _, rfl, rfl, le_refl _⟩
    | exact ⟨_, _, rfl, rfl, by rw [String.le_iff_toList_le]; decide⟩

theorem FruitsPercent.GetPoints_nonneg (f : FruitsPercent) (st : ScoreType) :
    0 ≤ FruitsPercent.GetPoints f st := by
  unfold FruitsPercent.GetPoints
  split_ifs <;> decide

/-- In a strictly descending list an earlier entry is above a later one. -/
theorem descending_get (steps : List ℚ) (hdesc : steps.Pairwise (fun a b => a > b))
    (j k : Nat) (hj : j < steps.length) (hk : k < steps.length) (hjk : j < k) :
    steps.get ⟨j, hj⟩ > steps.get ⟨k, hk⟩ := by
  have h := List.pairwise_iff_getElem.mp hdesc j k hj hk hjk
  simpa [List.get_eq_getElem] using h

/-- In a strictly descending list no entry at or before index `i` is strictly below
the entry at index `i`. -/
theorem descending_not_exceeded (steps : List ℚ)
    (hdesc : steps.Pairwise (fun a b => a > b))
    (i j : Nat) (hi : i < steps.length) (hj : j < steps.length) (hji : j ≤ i) :
    ¬ steps.get ⟨i, hi⟩ > steps.get ⟨j, hj⟩ := by
  rcases Nat.lt_or_ge j i with hlt | hge
  · exact lt_asymm (descending_get steps hdesc j i hj hi hlt)
  · have hij : j = i := Nat.le_antisymm hji hge
    subst hij
    exact lt_irrefl _

/-- Every index in `0..4` selects a letter of `scoreToLetter`, and no letter comes
before `"A"`. -/
theorem index_scoreToLetter_total (i : Int) (hi : 0 ≤ i) (hi4 : i ≤ 4) :
    ∃ l : String, index scoreToLetter i = some l ∧ l ∈ scoreToLetter ∧ "A" ≤ l := by
  interval_cases i
  · exact ⟨"A", rfl, by simp [scoreToLetter], le_refl _⟩
  · exact ⟨"B", rfl, by simp [scoreToLetter], by rw [String.le_iff_toList_le]; decide⟩
  · exact ⟨"C", rfl, by simp [scoreToLetter], by rw [String.le_iff_toList_le]; decide⟩
  · exact ⟨"D", rfl, by simp [scoreToLetter], by rw [String.le_iff_toList_le]; decide⟩
  · exact ⟨"E", rfl, by simp [scoreToLetter], by rw [String.le_iff_toList_le]; decide⟩

/-- The lookup in a table of four breakpoints always selects a letter. -/
theorem index_getPointsFromRange_total (v : ℚ) (steps : List ℚ) (hlen : steps.length = 4) :
    ∃ l : String, index scoreToLetter (getPointsFromRange v steps) = some l ∧
      l ∈ scoreToLetter ∧ "A" ≤ l := by
  apply index_scoreToLetter_total
  · exact getPointsFromRange_nonneg v steps
  · have h := getPointsFromRange_le v steps
    rw [hlen] at h
    exact_mod_cast h

theorem GetNutriScore_total (ns : NutritionalScore) :
    ∃ l : String, ns.GetNutriScore = some l ∧ l ∈ scoreToLetter ∧ "A" ≤ l := by
  unfold NutritionalScore.GetNutriScore
  split_ifs
  · exact index_getPointsFromRange_total _ _ rfl
  · exact index_scoreToLetter_total 0 (le_refl _) (by decide)
  · exact index_getPointsFromRange_total _ _ rfl

/-! ## Auxiliary lemmas on `float64` rounding -/

theorem nearestFloat64_zero : nearestFloat64 0 = 0 := by
  simp [nearestFloat64]

/-- C1: for every value `v` and breakpoint list `steps` of length `N`,
`getPointsFromRange v steps` is `N - i` for the smallest index `i` with
`v > steps[i]`, and `0` when no index is exceeded (in particular for the empty
list).  A tie `v = steps[i]` does not count: when no earlier breakpoint is
exceeded, a tie at index `i` leaves at most `N - i - 1` points. -/
theorem C1_getPointsFromRange_first_exceeded (v : ℚ) (steps : List ℚ) :
    (∀ (i : Nat) (hi : i < steps.length), v > steps.get ⟨i, hi⟩ →
        (∀ (j : Nat) (hj : j < i), ¬ v > steps.get ⟨j, hj.trans hi⟩) →
        getPointsFromRange v steps = (steps.length : Int) - (i : Int)) ∧
    ((∀ (i : Nat) (hi : i < steps.length), ¬ v > steps.get ⟨i, hi⟩) →
        getPointsFromRange v steps = 0) ∧
    getPointsFromRange v [] = 0 ∧
    (∀ (i : Nat) (hi : i < steps.length), v = steps.get ⟨i, hi⟩ →
        (∀ (j : Nat) (hj : j < i), ¬ v > steps.get ⟨j, hj.trans hi⟩) →
        getPointsFromRange v steps ≤ (steps.length : Int) - (i : Int) - 1) := by
  refine ⟨?_, ?_, rfl, ?_⟩
  · intro i hi hv hmin
    rw [getPointsFromRange_eq]; exact suffixPoints_first v steps i hi hv hmin
  · intro h
    rw [getPointsFromRange_eq]; exact suffixPoints_none v steps h
  · intro i hi hv hmin
    rw [getPointsFromRange_eq]
    apply suffixPoints_skip v steps i hi
    intro j hj hjl
    rcases Nat.lt_succ_iff_lt_or_eq.mp hj with hlt | heq
    · exact hmin j hlt
    · subst heq; rw [← hv]; exact lt_irrefl v

/-- Witness for C1 on the table `[7, 5, 3]`: the value `6` first exceeds index `1`
and scores `3 - 1 = 2`. -/
theorem C1_getPointsFromRange_first_exceeded_witness :
    getPointsFromRange 6 [7, 5, 3] = ((3 : Nat) : Int) - ((1 : Nat) : Int) :=
  (C1_getPointsFromRange_first_exceeded 6 [7, 5, 3]).1 1 (by decide)
    (by show (6 : ℚ) > 5; norm_num)
    (by
      intro j hj
      have hj0 : j = 0 := by omega
      subst hj0
      show ¬ (6 : ℚ) > 7
      norm_num)

/-- C2: for the categories Food and Beverage, `GetNutritionalScore` sets `Negative`
to the sum of the energy, sugars, saturated-fat and sodium points, `Positive` to the
sum of the fruit, fibre and protein points, and `Value` to
`Negative - fibre - fruits` when `Negative ≥ 11` and the fruit points are below `5`,
and to `Negative - Positive` otherwise.  Energy and sugars are looked up in the
beverage tables exactly when the category is Beverage; the other nutrients use one
table each. -/
theorem C2_GetNutritionalScore_food_beverage (n : NutritionalData) (st : ScoreType)
    (hst : st = Food ∨ st = Beverage) :
    (GetNutritionalScore n st).Negative
        = EnergyKJ.GetPoints n.Energy st + SugarGram.GetPoints n.Sugars st
          + SaturatedFattyAcidsGram.GetPoints n.SaturatedFattyAcids st
          + SodiumMilligram.GetPoints n.Sodium st ∧
    (GetNutritionalScore n st).Positive
        = FruitsPercent.GetPoints n.Fruits st + FibreGram.GetPoints n.Fibre st
          + ProteinGram.GetPoints n.Protein st ∧
    (GetNutritionalScore n st).Value
        = (if (GetNutritionalScore n st).Negative ≥ 11 ∧ FruitsPercent.GetPoints n.Fruits st < 5
           then (GetNutritionalScore n st).Negative - FibreGram.GetPoints n.Fibre st
                  - FruitsPercent.GetPoints n.Fruits st
           else (GetNutritionalScore n st).Negative - (GetNutritionalScore n st).Positive) ∧
    EnergyKJ.GetPoints n.Energy st
        = getPointsFromRange n.Energy
            (if st = Beverage then energyLevelsBeverage else energyLevels) ∧
    SugarGram.GetPoints n.Sugars st
        = getPointsFromRange n.Sugars
            (if st = Beverage then sugarsLevelsBeverage else sugarsLevels) ∧
    SaturatedFattyAcidsGram.GetPoints n.SaturatedFattyAcids st
        = getPointsFromRange n.SaturatedFattyAcids saturatedFattyAcidsLevels ∧
    SodiumMilligram.GetPoints n.Sodium st = getPointsFromRange n.Sodium sodiumLevels ∧
    FibreGram.GetPoints n.Fibre st = getPointsFromRange n.Fibre fibreLevels ∧
    ProteinGram.GetPoints n.Protein st = getPointsFromRange n.Protein proteinLevels := by
  have hW : st ≠ Water := by rcases hst with h | h <;> subst h <;> decide
  have hC : st ≠ Cheese := by rcases hst with h | h <;> subst h <;> decide
  refine ⟨?_, ?_, ?_, ?_, ?_, rfl, rfl, rfl, rfl⟩
  · simp [GetNutritionalScore, hW]
  · simp [GetNutritionalScore, hW]
  · simp [GetNutritionalScore, hW, hC]
  · unfold EnergyKJ.GetPoints; split <;> rfl
  · unfold SugarGram.GetPoints; split <;> rfl

/-- Witness for C2: the input of `main.go`, scored as Food. -/
theorem C2_GetNutritionalScore_food_beverage_witness :
    (GetNutritionalScore referenceInput Food).Negative
      = EnergyKJ.GetPoints referenceInput.Energy Food
        + SugarGram.GetPoints referenceInput.Sugars Food
        + SaturatedFattyAcidsGram.GetPoints referenceInput.SaturatedFattyAcids Food
        + SodiumMilligram.GetPoints referenceInput.Sodium Food :=
  (C2_GetNutritionalScore_food_beverage referenceInput Food (Or.inl rfl)).1

/-- C3: for the category Cheese, `Value = Negative - Positive` for every input,
without any condition; the rule also applies when `Negative ≥ 11` and the fruit
points are below `5`, where the same input scored as Food keeps the protein points
out of the subtraction (shown on `proteinRichInput`: Cheese `6`, Food `11`). -/
theorem C3_GetNutritionalScore_cheese :
    (∀ n : NutritionalData,
      (GetNutritionalScore n Cheese).Value
        = (GetNutritionalScore n Cheese).Negative - (GetNutritionalScore n Cheese).Positive) ∧
    ((GetNutritionalScore proteinRichInput Cheese).Negative ≥ 11 ∧
      FruitsPercent.GetPoints proteinRichInput.Fruits Cheese < 5 ∧
      (GetNutritionalScore proteinRichInput Cheese).Value = 6 ∧
      (GetNutritionalScore proteinRichInput Food).Value = 11) := by
  refine ⟨?_, ?_⟩
  · intro n
    simp [GetNutritionalScore, Cheese, Water]
  · simp [GetNutritionalScore, proteinRichInput, Cheese, Water, Food, Beverage,
      EnergyKJ.GetPoints, SugarGram.GetPoints, SaturatedFattyAcidsGram.GetPoints,
      SodiumMilligram.GetPoints, FruitsPercent.GetPoints, FibreGram.GetPoints,
      ProteinGram.GetPoints, getPointsFromRange, getPointsFromRangeLoop, energyLevels,
      sugarsLevels, saturatedFattyAcidsLevels, sodiumLevels, fibreLevels, proteinLevels]
    norm_num

/-- C4: for the category Water, `GetNutritionalScore` returns `Value = 0`,
`Positive = 0`, `Negative = 0` and `ScoreType = Water` for every input, and
`GetNutriScore` of any score whose `ScoreType` is Water is `"A"`, whatever its
`Value`, `Positive` and `Negative` are. -/
theorem C4_water_zero_and_graded_A :
    (∀ n : NutritionalData,
      GetNutritionalScore n Water
        = { Value := 0, Positive := 0, Negative := 0, ScoreType := Water }) ∧
    (∀ value positive negative : Int,
      NutritionalScore.GetNutriScore
        { Value := value, Positive := positive, Negative := negative, ScoreType := Water }
        = some "A") := by
  refine ⟨?_, ?_⟩
  · intro n; simp [GetNutritionalScore]
  · intro value positive negative
    simp [NutritionalScore.GetNutriScore, Water, Food, index, scoreToLetter]

/-- C5: for every score with `ScoreType = Food` and every integer `Value`,
`GetNutriScore` is the letter found by looking `Value` up in the breakpoints
`{18, 10, 2, -1}` and mapping `0 → A, 1 → B, 2 → C, 3 → D, 4 → E`: it is `A` for
`Value ≤ -1`, `B` for `0..2`, `C` for `3..10`, `D` for `11..18` and `E` from `19`. -/
theorem C5_GetNutriScore_food (ns : NutritionalScore) (hst : ns.ScoreType = Food) :
    ns.GetNutriScore
        = index scoreToLetter (getPointsFromRange (ns.Value : ℚ) [18, 10, 2, -1]) ∧
    (index scoreToLetter 0 = some "A" ∧ index scoreToLetter 1 = some "B" ∧
      index scoreToLetter 2 = some "C" ∧ index scoreToLetter 3 = some "D" ∧
      index scoreToLetter 4 = some "E") ∧
    ns.GetNutriScore
        = some (if ns.Value ≤ -1 then "A" else if ns.Value ≤ 2 then "B"
                else if ns.Value ≤ 10 then "C" else if ns.Value ≤ 18 then "D" else "E") := by
  refine ⟨?_, ?_, ?_⟩
  · simp [NutritionalScore.GetNutriScore, hst]
  · simp [index, scoreToLetter]
  · have h18 : ((ns.Value : ℚ) > 18) ↔ 18 < ns.Value := by norm_cast
    have h10 : ((ns.Value : ℚ) > 10) ↔ 10 < ns.Value := by norm_cast
    have h2 : ((ns.Value : ℚ) > 2) ↔ 2 < ns.Value := by norm_cast
    have h1 : ((ns.Value : ℚ) > -1) ↔ -1 < ns.Value := by norm_cast
    simp only [NutritionalScore.GetNutriScore, hst, if_true, getPointsFromRange,
      getPointsFromRangeLoop, h18, h10, h2, h1]
    split_ifs <;> first | omega | simp [index, scoreToLetter]

/-- Witness for C5: a Food score of value `2` is graded `B`. -/
theorem C5_GetNutriScore_food_witness :
    NutritionalScore.GetNutriScore
        { Value := 2, Positive := 6, Negative := 8, ScoreType := Food }
      = some (if (2 : Int) ≤ -1 then "A" else if (2 : Int) ≤ 2 then "B"
              else if (2 : Int) ≤ 10 then "C" else if (2 : Int) ≤ 18 then "D" else "E") :=
  (C5_GetNutriScore_food
    { Value := 2, Positive := 6, Negative := 8, ScoreType := Food } rfl).2.2

/-- C6: the code grades a Cheese score with the breakpoints `{9, 5, 1, -2}` of the
final branch, not with the Food breakpoints `{18, 10, 2, -1}`: the input of `main.go`
has the same `Value = 2` as Cheese and as Food, and is graded `C` as Cheese but `B`
as Food. -/
theorem C6_cheese_graded_with_beverage_breakpoints :
    (GetNutritionalScore referenceInput Cheese).Value = 2 ∧
    (GetNutritionalScore referenceInput Food).Value = 2 ∧
    (GetNutritionalScore referenceInput Cheese).GetNutriScore = some "C" ∧
    (GetNutritionalScore referenceInput Food).GetNutriScore = some "B" ∧
    (∀ ns : NutritionalScore, ns.ScoreType = Cheese →
      ns.GetNutriScore
        = index scoreToLetter (getPointsFromRange (ns.Value : ℚ) [9, 5, 1, -2])) := by
  have hC : GetNutritionalScore referenceInput Cheese
      = { Value := 2, Positive := 6, Negative := 8, ScoreType := Cheese } := by
    simp [GetNutritionalScore, referenceInput, Cheese, Water, Beverage,
      EnergyKJ.GetPoints, SugarGram.GetPoints, SaturatedFattyAcidsGram.GetPoints,
      SodiumMilligram.GetPoints, FruitsPercent.GetPoints, FibreGram.GetPoints,
      ProteinGram.GetPoints, getPointsFromRange, getPointsFromRangeLoop, energyLevels,
      sugarsLevels, saturatedFattyAcidsLevels, sodiumLevels, fibreLevels, proteinLevels]
    norm_num
  have hF : GetNutritionalScore referenceInput Food
      = { Value := 2, Positive := 6, Negative := 8, ScoreType := Food } := by
    simp [GetNutritionalScore, referenceInput, Cheese, Water, Food, Beverage,
      EnergyKJ.GetPoints, SugarGram.GetPoints, SaturatedFattyAcidsGram.GetPoints,
      SodiumMilligram.GetPoints, FruitsPercent.GetPoints, FibreGram.GetPoints,
      ProteinGram.GetPoints, getPointsFromRange, getPointsFromRangeLoop, energyLevels,
      sugarsLevels, saturatedFattyAcidsLevels, sodiumLevels, fibreLevels, proteinLevels]
    norm_num
  refine ⟨?_, ?_, ?_, ?_, ?_⟩
  · rw [hC]
  · rw [hF]
  · rw [hC]
    simp [NutritionalScore.GetNutriScore, index, scoreToLetter, Cheese, Food, Water,
      getPointsFromRange, getPointsFromRangeLoop]
    norm_num
    rfl
  · rw [hF]
    simp [NutritionalScore.GetNutriScore, index, scoreToLetter, Food, getPointsFromRange,
      getPointsFromRangeLoop]
    norm_num
  · intro ns h
    simp [NutritionalScore.GetNutriScore, h, Cheese, Food, Water]

/-- C7: for every score with `ScoreType = Beverage` and every integer `Value`,
`GetNutriScore` is the letter found by looking `Value` up in the breakpoints
`{9, 5, 1, -2}` with the mapping `0 → A, 1 → B, 2 → C, 3 → D, 4 → E`: it is `A` for
`Value ≤ -2`, `B` for `-1..1`, `C` for `2..5`, `D` for `6..9` and `E` from `10`. -/
theorem C7_GetNutriScore_beverage (ns : NutritionalScore) (hst : ns.ScoreType = Beverage) :
    ns.GetNutriScore
        = index scoreToLetter (getPointsFromRange (ns.Value : ℚ) [9, 5, 1, -2]) ∧
    (index scoreToLetter 0 = some "A" ∧ index scoreToLetter 1 = some "B" ∧
      index scoreToLetter 2 = some "C" ∧ index scoreToLetter 3 = some "D" ∧
      index scoreToLetter 4 = some "E") ∧
    ns.GetNutriScore
        = some (if ns.Value ≤ -2 then "A" else if ns.Value ≤ 1 then "B"
                else if ns.Value ≤ 5 then "C" else if ns.Value ≤ 9 then "D" else "E") := by
  have hF : ¬ ns.ScoreType = Food := by rw [hst]; decide
  have hW : ¬ ns.ScoreType = Water := by rw [hst]; decide
  refine ⟨?_, ?_, ?_⟩
  · simp [NutritionalScore.GetNutriScore, hF, hW]
  · simp [index, scoreToLetter]
  · have h9 : ((ns.Value : ℚ) > 9) ↔ 9 < ns.Value := by norm_cast
    have h5 : ((ns.Value : ℚ) > 5) ↔ 5 < ns.Value := by norm_cast
    have h1 : ((ns.Value : ℚ) > 1) ↔ 1 < ns.Value := by norm_cast
    have h2 : ((ns.Value : ℚ) > -2) ↔ -2 < ns.Value := by norm_cast
    simp only [NutritionalScore.GetNutriScore, hF, hW, if_false, getPointsFromRange,
      getPointsFromRangeLoop, h9, h5, h1, h2]
    split_ifs <;> first | omega | simp [index, scoreToLetter]

/-- Witness for C7: a Beverage score of value `2` is graded `C`. -/
theorem C7_GetNutriScore_beverage_witness :
    NutritionalScore.GetNutriScore
        { Value := 2, Positive := 6, Negative := 8, ScoreType := Beverage }
      = some (if (2 : Int) ≤ -2 then "A" else if (2 : Int) ≤ 1 then "B"
              else if (2 : Int) ≤ 5 then "C" else if (2 : Int) ≤ 9 then "D" else "E") :=
  (C7_GetNutriScore_beverage
    { Value := 2, Positive := 6, Negative := 8, ScoreType := Beverage } rfl).2.2

/-- C8: for the input of `main.go` (energy `0` kJ, which is what `EnergyFromKcal 0`
returns, sugars 10 g, saturated fat 2 g, sodium 500 mg, fruits 60 %, fibre 4 g,
protein 2 g) and the category Food, `GetNutritionalScore` returns `Value = 2`
(negative `8`, positive `6`) and `GetNutriScore` of the result is `"B"`. -/
theorem C8_reference_example :
    EnergyFromKcal 0 = some referenceInput.Energy ∧
    referenceInput.Energy = 0 ∧
    (GetNutritionalScore referenceInput Food)
      = { Value := 2, Positive := 6, Negative := 8, ScoreType := Food } ∧
    (GetNutritionalScore referenceInput Food).GetNutriScore = some "B" := by
  have hscore : GetNutritionalScore referenceInput Food
      = { Value := 2, Positive := 6, Negative := 8, ScoreType := Food } := by
    simp [GetNutritionalScore, referenceInput, Cheese, Water, Food, Beverage,
      EnergyKJ.GetPoints, SugarGram.GetPoints, SaturatedFattyAcidsGram.GetPoints,
      SodiumMilligram.GetPoints, FruitsPercent.GetPoints, FibreGram.GetPoints,
      ProteinGram.GetPoints, getPointsFromRange, getPointsFromRangeLoop, energyLevels,
      sugarsLevels, saturatedFattyAcidsLevels, sodiumLevels, fibreLevels, proteinLevels]
    norm_num
  refine ⟨?_, rfl, hscore, ?_⟩
  · unfold EnergyFromKcal roundFloat64
    rw [zero_mul, nearestFloat64_zero, abs_zero, if_pos (by positivity)]
    rfl
  · rw [hscore]
    simp [NutritionalScore.GetNutriScore, index, scoreToLetter, Food, getPointsFromRange,
      getPointsFromRangeLoop]
    norm_num

/-- C9: the threshold lookup is monotone in the value for every breakpoint list,
descending or not: `v1 ≤ v2` gives
`getPointsFromRange v1 steps ≤ getPointsFromRange v2 steps`. -/
theorem C9_getPointsFromRange_monotone (steps : List ℚ) (v1 v2 : ℚ) (h : v1 ≤ v2) :
    getPointsFromRange v1 steps ≤ getPointsFromRange v2 steps := by
  rw [getPointsFromRange_eq, getPointsFromRange_eq]
  exact suffixPoints_mono steps v1 v2 h

/-- Witness for C9 on a table that is not descending. -/
theorem C9_getPointsFromRange_monotone_witness :
    (1 : ℚ) ≤ 4 ∧ getPointsFromRange 1 [3, 0, 5] ≤ getPointsFromRange 4 [3, 0, 5] :=
  ⟨by norm_num, C9_getPointsFromRange_monotone [3, 0, 5] 1 4 (by norm_num)⟩

/-- C10: the grade is monotone in the value: for each of the categories Food,
Beverage and Cheese and all integers `value1 ≤ value2`, `GetNutriScore` returns a
letter for both values, and the letter for `value1` is alphabetically earlier than
or equal to the letter for `value2`. -/
theorem C10_GetNutriScore_monotone (st : ScoreType)
    (hst : st = Food ∨ st = Beverage ∨ st = Cheese)
    (value1 value2 positive1 negative1 positive2 negative2 : Int)
    (h : value1 ≤ value2) :
    ∃ l1 l2 : String,
      NutritionalScore.GetNutriScore
        { Value := value1, Positive := positive1, Negative := negative1, ScoreType := st }
          = some l1 ∧
      NutritionalScore.GetNutriScore
        { Value := value2, Positive := positive2, Negative := negative2, ScoreType := st }
          = some l2 ∧
      l1 ≤ l2 := by
  have hq : (value1 : ℚ) ≤ (value2 : ℚ) := by exact_mod_cast h
  have key : ∀ steps : List ℚ, steps.length = 4 →
      ∃ l1 l2 : String,
        index scoreToLetter (getPointsFromRange (value1 : ℚ) steps) = some l1 ∧
        index scoreToLetter (getPointsFromRange (value2 : ℚ) steps) = some l2 ∧ l1 ≤ l2 := by
    intro steps hlen
    apply index_scoreToLetter_mono
    · exact getPointsFromRange_nonneg _ _
    · exact getPointsFromRange_mono steps _ _ hq
    · have := getPointsFromRange_le (value2 : ℚ) steps
      rw [hlen] at this
      exact_mod_cast this
  rcases hst with hs | hs | hs
  · subst hs
    simpa [NutritionalScore.GetNutriScore] using key [18, 10, 2, -1] rfl
  · subst hs
    simpa [NutritionalScore.GetNutriScore, Beverage, Food, Water] using key [9, 5, 1, -2] rfl
  · subst hs
    simpa [NutritionalScore.GetNutriScore, Cheese, Food, Water] using key [9, 5, 1, -2] rfl

/-- Witness for C10: Food scores of value `2` and `11` are graded `B` and `D`. -/
theorem C10_GetNutriScore_monotone_witness :
    (2 : Int) ≤ 11 ∧
    ∃ l1 l2 : String,
      NutritionalScore.GetNutriScore
        { Value := 2, Positive := 6, Negative := 8, ScoreType := Food } = some l1 ∧
      NutritionalScore.GetNutriScore
        { Value := 11, Positive := 0, Negative := 11, ScoreType := Food } = some l2 ∧
      l1 ≤ l2 :=
  ⟨by decide, C10_GetNutriScore_monotone Food (Or.inl rfl) 2 11 6 8 0 11 (by decide)⟩

/-- C11: for every input, physically meaningful or not, and every category, the
result of `GetNutritionalScore` has `Negative ≥ 0` and `Positive ≥ 0`. -/
theorem C11_components_nonneg (n : NutritionalData) (st : ScoreType) :
    0 ≤ (GetNutritionalScore n st).Negative ∧ 0 ≤ (GetNutritionalScore n st).Positive := by
  have hE : 0 ≤ EnergyKJ.GetPoints n.Energy st := by
    unfold EnergyKJ.GetPoints; split <;> exact getPointsFromRange_nonneg _ _
  have hS : 0 ≤ SugarGram.GetPoints n.Sugars st := by
    unfold SugarGram.GetPoints; split <;> exact getPointsFromRange_nonneg _ _
  have hA : 0 ≤ SaturatedFattyAcidsGram.GetPoints n.SaturatedFattyAcids st :=
    getPointsFromRange_nonneg _ _
  have hN : 0 ≤ SodiumMilligram.GetPoints n.Sodium st := getPointsFromRange_nonneg _ _
  have hFr : 0 ≤ FruitsPercent.GetPoints n.Fruits st := FruitsPercent.GetPoints_nonneg _ _
  have hFi : 0 ≤ FibreGram.GetPoints n.Fibre st := getPointsFromRange_nonneg _ _
  have hP : 0 ≤ ProteinGram.GetPoints n.Protein st := getPointsFromRange_nonneg _ _
  by_cases hW : st = Water
  · simp [GetNutritionalScore, hW]
  · simp only [GetNutritionalScore, ne_eq, hW, not_false_eq_true, if_true]
    constructor <;> omega

/-- C12: for each table-based nutrient, every measurement and every category,
`GetPoints` lies between `0` and the length of the table it uses: at most `10` for
energy, sugars, saturated fat and sodium, at most `5` for fibre and protein. -/
theorem C12_points_within_table_length (v : ℚ) (st : ScoreType) :
    (0 ≤ EnergyKJ.GetPoints v st ∧ EnergyKJ.GetPoints v st ≤ 10) ∧
    (0 ≤ SugarGram.GetPoints v st ∧ SugarGram.GetPoints v st ≤ 10) ∧
    (0 ≤ SaturatedFattyAcidsGram.GetPoints v st ∧
      SaturatedFattyAcidsGram.GetPoints v st ≤ 10) ∧
    (0 ≤ SodiumMilligram.GetPoints v st ∧ SodiumMilligram.GetPoints v st ≤ 10) ∧
    (0 ≤ FibreGram.GetPoints v st ∧ FibreGram.GetPoints v st ≤ 5) ∧
    (0 ≤ ProteinGram.GetPoints v st ∧ ProteinGram.GetPoints v st ≤ 5) ∧
    (energyLevels.length = 10 ∧ energyLevelsBeverage.length = 10 ∧
      sugarsLevels.length = 10 ∧ sugarsLevelsBeverage.length = 10 ∧
      saturatedFattyAcidsLevels.length = 10 ∧ sodiumLevels.length = 10 ∧
      fibreLevels.length = 5 ∧ proteinLevels.length = 5) := by
  refine ⟨⟨?_, ?_⟩, ⟨?_, ?_⟩, ⟨getPointsFromRange_nonneg _ _, ?_⟩,
    ⟨getPointsFromRange_nonneg _ _, ?_⟩, ⟨getPointsFromRange_nonneg _ _, ?_⟩,
    ⟨getPointsFromRange_nonneg _ _, ?_⟩, ⟨rfl, rfl, rfl, rfl, rfl, rfl, rfl, rfl⟩⟩
  · unfold EnergyKJ.GetPoints; split <;> exact getPointsFromRange_nonneg _ _
  · unfold EnergyKJ.GetPoints; split
    · exact getPointsFromRange_le v energyLevelsBeverage
    · exact getPointsFromRange_le v energyLevels
  · unfold SugarGram.GetPoints; split <;> exact getPointsFromRange_nonneg _ _
  · unfold SugarGram.GetPoints; split
    · exact getPointsFromRange_le v sugarsLevelsBeverage
    · exact getPointsFromRange_le v sugarsLevels
  · exact getPointsFromRange_le v saturatedFattyAcidsLevels
  · exact getPointsFromRange_le v sodiumLevels
  · exact getPointsFromRange_le v fibreLevels
  · exact getPointsFromRange_le v proteinLevels

/-- C13: for every fruit percentage `f`, the fruit points for Beverage are `10` if
`f > 80`, `4` if `60 < f ≤ 80`, `2` if `40 < f ≤ 60` and `0` otherwise; for every
other category they are `5`, `2`, `1` and `0` on the same intervals.  The boundaries
are strict: `80`, `60` and `40` themselves fall in the lower bucket. -/
theorem C13_fruit_points_buckets (f : FruitsPercent) (st : ScoreType) :
    (st = Beverage →
      (f > 80 → FruitsPercent.GetPoints f st = 10) ∧
      (60 < f ∧ f ≤ 80 → FruitsPercent.GetPoints f st = 4) ∧
      (40 < f ∧ f ≤ 60 → FruitsPercent.GetPoints f st = 2) ∧
      (f ≤ 40 → FruitsPercent.GetPoints f st = 0)) ∧
    (st ≠ Beverage →
      (f > 80 → FruitsPercent.GetPoints f st = 5) ∧
      (60 < f ∧ f ≤ 80 → FruitsPercent.GetPoints f st = 2) ∧
      (40 < f ∧ f ≤ 60 → FruitsPercent.GetPoints f st = 1) ∧
      (f ≤ 40 → FruitsPercent.GetPoints f st = 0)) := by
  constructor
  · intro hst
    simp only [FruitsPercent.GetPoints, hst, if_true]
    refine ⟨?_, ?_, ?_, ?_⟩
    · intro h; rw [if_pos h]
    · rintro ⟨h1, h2⟩; rw [if_neg (not_lt.mpr h2), if_pos h1]
    · rintro ⟨h1, h2⟩
      rw [if_neg (not_lt.mpr (le_trans h2 (by norm_num))), if_neg (not_lt.mpr h2), if_pos h1]
    · intro h
      rw [if_neg (not_lt.mpr (le_trans h (by norm_num))),
        if_neg (not_lt.mpr (le_trans h (by norm_num))), if_neg (not_lt.mpr h)]
  · intro hst
    simp only [FruitsPercent.GetPoints, hst, if_false]
    refine ⟨?_, ?_, ?_, ?_⟩
    · intro h; rw [if_pos h]
    · rintro ⟨h1, h2⟩; rw [if_neg (not_lt.mpr h2), if_pos h1]
    · rintro ⟨h1, h2⟩
      rw [if_neg (not_lt.mpr (le_trans h2 (by norm_num))), if_neg (not_lt.mpr h2), if_pos h1]
    · intro h
      rw [if_neg (not_lt.mpr (le_trans h (by norm_num))),
        if_neg (not_lt.mpr (le_trans h (by norm_num))), if_neg (not_lt.mpr h)]

/-- Witness for C13 at the boundary `80`: a beverage with exactly 80 % fruit gets the
`4` points of the bucket below, and a food gets `2`. -/
theorem C13_fruit_points_buckets_witness :
    FruitsPercent.GetPoints 80 Beverage = 4 ∧ FruitsPercent.GetPoints 80 Food = 2 :=
  ⟨((C13_fruit_points_buckets 80 Beverage).1 rfl).2.1 ⟨by norm_num, le_refl _⟩,
   ((C13_fruit_points_buckets 80 Food).2 (by decide)).2.1 ⟨by norm_num, le_refl _⟩⟩

/-- C14: for every strictly descending breakpoint list `steps` of length `N` and every
index `i`, the value `steps[i]` itself scores `N - i - 1` points, one point fewer than
the `N - i` points of every value `v` with `steps[i] < v` (and `v ≤ steps[i-1]` when
`i > 0`). -/
theorem C14_tie_scores_one_lower (steps : List ℚ)
    (hdesc : steps.Pairwise (fun a b => a > b)) (i : Nat) (hi : i < steps.length) :
    getPointsFromRange (steps.get ⟨i, hi⟩) steps = (steps.length : Int) - (i : Int) - 1 ∧
    (∀ v : ℚ, steps.get ⟨i, hi⟩ < v →
      (∀ h0 : 0 < i, v ≤ steps.get ⟨i - 1, by omega⟩) →
      getPointsFromRange v steps = (steps.length : Int) - (i : Int)) := by
  constructor
  · rw [getPointsFromRange_eq]
    by_cases hlast : i + 1 < steps.length
    · have h := suffixPoints_first (steps.get ⟨i, hi⟩) steps (i + 1) hlast
        (descending_get steps hdesc i (i + 1) hi hlast (Nat.lt_succ_self i))
        (fun j hj => descending_not_exceeded steps hdesc i j hi (hj.trans hlast)
          (Nat.lt_succ_iff.mp hj))
      rw [h]; push_cast; omega
    · have h := suffixPoints_none (steps.get ⟨i, hi⟩) steps
        (fun j hj => descending_not_exceeded steps hdesc i j hi hj (by omega))
      rw [h]; omega
  · intro v hv hprev
    rw [getPointsFromRange_eq]
    apply suffixPoints_first v steps i hi hv
    intro j hj
    have h0 : 0 < i := by omega
    have hjl : j < steps.length := hj.trans hi
    have hle : steps.get ⟨i - 1, by omega⟩ ≤ steps.get ⟨j, hjl⟩ := by
      rcases Nat.lt_or_ge j (i - 1) with hlt | hge
      · exact le_of_lt (descending_get steps hdesc j (i - 1) hjl (by omega) hlt)
      · have hji : j = i - 1 := by omega
        subst hji
        exact le_refl _
    exact not_lt.mpr (le_trans (hprev h0) hle)

/-- Witness for C14 on the protein table at index `1`: the breakpoint `6.4` itself
scores `3` points and the value `7` scores `4`. -/
theorem C14_tie_scores_one_lower_witness :
    getPointsFromRange (6.4 : ℚ) proteinLevels = 3 ∧
    getPointsFromRange (7 : ℚ) proteinLevels = 4 := by
  have hdesc : proteinLevels.Pairwise (fun a b => a > b) := by
    simp only [proteinLevels, List.pairwise_cons, List.mem_cons, List.mem_singleton]
    norm_num
  have h := C14_tie_scores_one_lower proteinLevels hdesc 1 (by decide)
  refine ⟨?_, ?_⟩
  · have h1 := h.1
    simpa [proteinLevels] using h1
  · have h2 := h.2 7 (by simp [proteinLevels]; norm_num)
      (fun _ => by show (7 : ℚ) ≤ 8; norm_num)
    simpa [proteinLevels] using h2

/-- C15, as the code has it: for every Food input whose negative component is exactly
`11` and whose fruit percentage is exactly `40`, the fruit points are `0` (the bucket
boundary is strict, and `0 < 5`), so the subtractive branch is taken:
`Value = 11 - points(fibre)`, and the protein points are not subtracted. -/
theorem C15_fruit_boundary_subtractive (n : NutritionalData)
    (hneg : (GetNutritionalScore n Food).Negative = 11) (hfr : n.Fruits = 40) :
    FruitsPercent.GetPoints n.Fruits Food = 0 ∧
    (GetNutritionalScore n Food).Value = 11 - FibreGram.GetPoints n.Fibre Food ∧
    (GetNutritionalScore n Food).Value
      = (GetNutritionalScore n Food).Negative - (GetNutritionalScore n Food).Positive
        + ProteinGram.GetPoints n.Protein Food := by
  have hfp : FruitsPercent.GetPoints n.Fruits Food = 0 := by
    rw [hfr]; simp [FruitsPercent.GetPoints, Food, Beverage]; norm_num
  have hW : Food ≠ Water := by decide
  have hC : Food ≠ Cheese := by decide
  simp only [GetNutritionalScore, ne_eq, hW, not_false_eq_true, if_true, hC, if_false,
    hfp] at hneg ⊢
  refine ⟨trivial, ?_, ?_⟩
  · rw [if_pos ⟨by omega, by decide⟩]; omega
  · rw [if_pos ⟨by omega, by decide⟩]; omega

/-- Witness for the amended C15 on `boundaryFruitInput`. -/
theorem C15_fruit_boundary_subtractive_witness :
    FruitsPercent.GetPoints boundaryFruitInput.Fruits Food = 0 ∧
    (GetNutritionalScore boundaryFruitInput Food).Value
      = 11 - FibreGram.GetPoints boundaryFruitInput.Fibre Food ∧
    (GetNutritionalScore boundaryFruitInput Food).Value
      = (GetNutritionalScore boundaryFruitInput Food).Negative
        - (GetNutritionalScore boundaryFruitInput Food).Positive
        + ProteinGram.GetPoints boundaryFruitInput.Protein Food :=
  C15_fruit_boundary_subtractive boundaryFruitInput
    (by
      simp [GetNutritionalScore, boundaryFruitInput, Water, Food, Beverage,
        EnergyKJ.GetPoints, SugarGram.GetPoints, SaturatedFattyAcidsGram.GetPoints,
        SodiumMilligram.GetPoints, getPointsFromRange, getPointsFromRangeLoop, energyLevels,
        sugarsLevels, saturatedFattyAcidsLevels, sodiumLevels]
      norm_num)
    rfl

/-- C15 as stated fails on `boundaryFruitInput`: its negative component is `11` and its
fruit percentage is `40`, but its fruit points are `0`, not `1`, and its `Value` is
`9 = 11 - points(fibre)`, not `11 - points(fibre) - 1`. -/
theorem C15_fruit_boundary_counterexample :
    (GetNutritionalScore boundaryFruitInput Food).Negative = 11 ∧
    boundaryFruitInput.Fruits = 40 ∧
    FruitsPercent.GetPoints boundaryFruitInput.Fruits Food = 0 ∧
    FibreGram.GetPoints boundaryFruitInput.Fibre Food = 2 ∧
    (GetNutritionalScore boundaryFruitInput Food).Value = 9 ∧
    ¬ (FruitsPercent.GetPoints boundaryFruitInput.Fruits Food = 1 ∧
        (GetNutritionalScore boundaryFruitInput Food).Value
          = 11 - FibreGram.GetPoints boundaryFruitInput.Fibre Food - 1) := by
  have hscore : GetNutritionalScore boundaryFruitInput Food
      = { Value := 9, Positive := 7, Negative := 11, ScoreType := Food } := by
    simp [GetNutritionalScore, boundaryFruitInput, Cheese, Water, Food, Beverage,
      EnergyKJ.GetPoints, SugarGram.GetPoints, SaturatedFattyAcidsGram.GetPoints,
      SodiumMilligram.GetPoints, FruitsPercent.GetPoints, FibreGram.GetPoints,
      ProteinGram.GetPoints, getPointsFromRange, getPointsFromRangeLoop, energyLevels,
      sugarsLevels, saturatedFattyAcidsLevels, sodiumLevels, fibreLevels, proteinLevels]
    norm_num
  have hfp : FruitsPercent.GetPoints boundaryFruitInput.Fruits Food = 0 := by
    simp [FruitsPercent.GetPoints, boundaryFruitInput, Food, Beverage]; norm_num
  have hfi : FibreGram.GetPoints boundaryFruitInput.Fibre Food = 2 := by
    simp [FibreGram.GetPoints, boundaryFruitInput, getPointsFromRange,
      getPointsFromRangeLoop, fibreLevels]
    norm_num
  refine ⟨by rw [hscore], rfl, hfp, hfi, by rw [hscore], ?_⟩
  rw [hfp]
  rintro ⟨h, _⟩
  exact absurd h (by decide)

/-- C16, as the code has it: the Water score has `Value = 0` for every input and is
graded `"A"`, and `"A"` is the best grade any score can get: for all inputs `n`, `n'`
and every category `st`, the grade of `GetNutritionalScore n' st` is defined and is
not alphabetically before the grade of `GetNutritionalScore n Water`. -/
theorem C16_water_best_grade (n n' : NutritionalData) (st : ScoreType) :
    (GetNutritionalScore n Water).Value = 0 ∧
    (GetNutritionalScore n Water).GetNutriScore = some "A" ∧
    ∃ l : String, (GetNutritionalScore n' st).GetNutriScore = some l ∧ "A" ≤ l := by
  refine ⟨?_, ?_, ?_⟩
  · simp [GetNutritionalScore]
  · simp [GetNutritionalScore, NutritionalScore.GetNutriScore, Water, Food, index,
      scoreToLetter]
  · obtain ⟨l, hl, _, hA⟩ := GetNutriScore_total (GetNutritionalScore n' st)
    exact ⟨l, hl, hA⟩

/-- C16 as stated fails: `produceRichInput` scored as Food has `Value = -15`, which is
below the Water `Value = 0`. -/
theorem C16_water_value_not_minimum :
    (GetNutritionalScore produceRichInput Water).Value = 0 ∧
    (GetNutritionalScore produceRichInput Food).Value = -15 ∧
    ¬ ((GetNutritionalScore produceRichInput Water).Value
        ≤ (GetNutritionalScore produceRichInput Food).Value) := by
  have hW : (GetNutritionalScore produceRichInput Water).Value = 0 := by
    simp [GetNutritionalScore]
  have hF : (GetNutritionalScore produceRichInput Food).Value = -15 := by
    simp [GetNutritionalScore, produceRichInput, Cheese, Water, Food, Beverage,
      EnergyKJ.GetPoints, SugarGram.GetPoints, SaturatedFattyAcidsGram.GetPoints,
      SodiumMilligram.GetPoints, FruitsPercent.GetPoints, FibreGram.GetPoints,
      ProteinGram.GetPoints, getPointsFromRange, getPointsFromRangeLoop, energyLevels,
      sugarsLevels, saturatedFattyAcidsLevels, sodiumLevels, fibreLevels, proteinLevels]
    norm_num
  refine ⟨hW, hF, ?_⟩
  rw [hW, hF]; decide

/-- C18: `GetNutriScore` never fails: for every score, with any integer `Value` and any
`ScoreType` (also one outside the four named constants), the index computed into the
five-element list `scoreToLetter` lies in `0..4` for both breakpoint tables, so the
lookup is in bounds and the result is one of `"A"`, `"B"`, `"C"`, `"D"`, `"E"`. -/
theorem C18_GetNutriScore_never_fails (ns : NutritionalScore) :
    (0 ≤ getPointsFromRange (ns.Value : ℚ) [18, 10, 2, -1] ∧
      getPointsFromRange (ns.Value : ℚ) [18, 10, 2, -1] ≤ 4) ∧
    (0 ≤ getPointsFromRange (ns.Value : ℚ) [9, 5, 1, -2] ∧
      getPointsFromRange (ns.Value : ℚ) [9, 5, 1, -2] ≤ 4) ∧
    scoreToLetter.length = 5 ∧
    ∃ l : String, ns.GetNutriScore = some l ∧ l ∈ ["A", "B", "C", "D", "E"] := by
  refine ⟨⟨getPointsFromRange_nonneg _ _, ?_⟩, ⟨getPointsFromRange_nonneg _ _, ?_⟩, rfl, ?_⟩
  · exact getPointsFromRange_le (ns.Value : ℚ) [18, 10, 2, -1]
  · exact getPointsFromRange_le (ns.Value : ℚ) [9, 5, 1, -2]
  · obtain ⟨l, hl, hmem, _⟩ := GetNutriScore_total ns
    exact ⟨l, hl, hmem⟩

/-- C19: the field `IsWater` has no effect: two inputs that agree on the seven
measurements get the same result from `GetNutritionalScore` for every category,
whatever their `IsWater` flags are; only the category argument selects the all-zero
Water score. -/
theorem C19_IsWater_ignored (n1 n2 : NutritionalData) (st : ScoreType)
    (hEnergy : n1.Energy = n2.Energy) (hSugars : n1.Sugars = n2.Sugars)
    (hSat : n1.SaturatedFattyAcids = n2.SaturatedFattyAcids)
    (hSodium : n1.Sodium = n2.Sodium) (hFruits : n1.Fruits = n2.Fruits)
    (hFibre : n1.Fibre = n2.Fibre) (hProtein : n1.Protein = n2.Protein) :
    GetNutritionalScore n1 st = GetNutritionalScore n2 st := by
  unfold GetNutritionalScore
  rw [hEnergy, hSugars, hSat, hSodium, hFruits, hFibre, hProtein]

/-- Witness for C19: the input of `main.go` with `IsWater` set to `true`, scored as
Food, gets the score of the unflagged input, which is not the all-zero score. -/
theorem C19_IsWater_ignored_witness :
    referenceInput.IsWater ≠ ({ referenceInput with IsWater := true } : NutritionalData).IsWater ∧
    GetNutritionalScore referenceInput Food
      = GetNutritionalScore { referenceInput with IsWater := true } Food :=
  ⟨by decide,
   C19_IsWater_ignored referenceInput { referenceInput with IsWater := true } Food
    rfl rfl rfl rfl rfl rfl rfl⟩

/-- C20: for every input and every category the result of `GetNutritionalScore`
satisfies `Negative - Positive ≤ Value ≤ Negative`; consequently, for the same input,
the Food `Value` is never below the Cheese `Value`. -/
theorem C20_value_between_bounds (n : NutritionalData) (st : ScoreType) :
    (GetNutritionalScore n st).Negative - (GetNutritionalScore n st).Positive
        ≤ (GetNutritionalScore n st).Value ∧
    (GetNutritionalScore n st).Value ≤ (GetNutritionalScore n st).Negative ∧
    (GetNutritionalScore n Cheese).Value ≤ (GetNutritionalScore n Food).Value := by
  have hFr : ∀ s : ScoreType, 0 ≤ FruitsPercent.GetPoints n.Fruits s :=
    fun s => FruitsPercent.GetPoints_nonneg _ s
  have hFi : ∀ s : ScoreType, 0 ≤ FibreGram.GetPoints n.Fibre s :=
    fun _ => getPointsFromRange_nonneg _ _
  have hP : ∀ s : ScoreType, 0 ≤ ProteinGram.GetPoints n.Protein s :=
    fun _ => getPointsFromRange_nonneg _ _
  have hbounds : (GetNutritionalScore n st).Negative - (GetNutritionalScore n st).Positive
        ≤ (GetNutritionalScore n st).Value ∧
      (GetNutritionalScore n st).Value ≤ (GetNutritionalScore n st).Negative := by
    have h1 := hFr st
    have h2 := hFi st
    have h3 := hP st
    by_cases hW : st = Water
    · simp [GetNutritionalScore, hW]
    · simp only [GetNutritionalScore, ne_eq, hW, not_false_eq_true, if_true]
      split_ifs <;> constructor <;> omega
  refine ⟨hbounds.1, hbounds.2, ?_⟩
  have h3 := hP Food
  have hW : Cheese ≠ Water := by decide
  have hW2 : Food ≠ Water := by decide
  have hC : Food ≠ Cheese := by decide
  have hB : Cheese ≠ Beverage := by decide
  have hB2 : Food ≠ Beverage := by decide
  simp only [GetNutritionalScore, ne_eq, hW, hW2, hC, not_false_eq_true, if_true, if_false,
    EnergyKJ.GetPoints, SugarGram.GetPoints, SaturatedFattyAcidsGram.GetPoints,
    SodiumMilligram.GetPoints, FruitsPercent.GetPoints, FibreGram.GetPoints,
    ProteinGram.GetPoints, hB, hB2] at h3 ⊢
  split_ifs <;> omega

end NutriScore
